import Mathlib

/-!
A shallow embedding of the deployment-orchestration core of the
`fareplay-labs/cli` repository (TypeScript), together with theorems checking
the natural-language specification against it.

Embedded source files:
* `src/utils/fly.ts`   — gateway to the external platform CLI, the Postgres
  provisioning poll loop, the Redis and Tigris provisioners;
* `src/utils/npm.ts`   — npm subprocess gateway;
* `src/utils/git.ts`   — clone of the backend repository with cleanup;
* `src/commands/init.ts` — the initialization task pipeline.

External effects (process spawning, the filesystem, JSON parsing, GraphQL
calls) are represented by explicit outcome parameters threaded through the
definitions, so every definition is executable on concrete inputs.
-/

/-- Result of one subprocess invocation: captured output and the exit code
as the gateway reports it (`{ stdout, stderr, exitCode }` in the source). -/
structure CmdResult where
  stdout : String
  stderr : String
  exitCode : Nat
  deriving Repr, DecidableEq

/-- The exit code the `close` handler stores: the source computes
`code || 0`, so a `null` code (process killed by a signal) and a zero code
both become `0`; any other number is kept (`fly.ts` line 83, `npm.ts`
line 37). -/
def closeExitCode (code : Option Nat) : Nat :=
  match code with
  | none => 0
  | some c => c

/-- JavaScript `a || b` on strings: the empty string is falsy. -/
def jsOrS (a b : String) : String :=
  if a = "" then b else a

/-- JavaScript `v || d` where `v` is a possibly-absent string field:
both `undefined`/`null` and the empty string fall through to `d`. -/
def jsOrStr (v : Option String) (d : String) : String :=
  match v with
  | none => d
  | some s => if s = "" then d else s

/-- The classification every caller applies to a gateway result:
`if (result.exitCode !== 0)` — the invocation failed. -/
def subprocessFailed (r : CmdResult) : Bool :=
  r.exitCode ≠ 0

/-- Embedding of `executeFlyCommand` (fly.ts lines 27–87): spawns the fly CLI and
resolves with the captured stdout/stderr and `code || 0`.  The embedding
takes the process termination (the runtime's `close` code, `none` when the
process was killed by a signal) and the captured streams as inputs; the
argument list and options do not affect the resolved value. -/
def executeFlyCommand (_args : List String) (code : Option Nat)
    (out err : String) : CmdResult :=
  { stdout := out, stderr := err, exitCode := closeExitCode code }

/-- Embedding of `executeNpmCommand` (npm.ts lines 6–41): same resolution shape as the
fly gateway, `exitCode: code || 0`. -/
def executeNpmCommand (_args : List String) (_cwd : String) (code : Option Nat)
    (out err : String) : CmdResult :=
  { stdout := out, stderr := err, exitCode := closeExitCode code }

/-- Embedding of `installDependencies` (npm.ts lines 46–52): runs `npm install` and
throws `Failed to install dependencies: ${result.stderr}` on a non-zero
exit code. -/
def installDependencies (projectPath : String) (code : Option Nat)
    (out err : String) : Except String Unit :=
  let result := executeNpmCommand ["install"] projectPath code out err
  if subprocessFailed result then
    .error ("Failed to install dependencies: " ++ result.stderr)
  else
    .ok ()

/-- Embedding of `deployToFly` (fly.ts lines 551–560): runs `fly deploy --app` and
throws `Deployment failed: ${result.stderr || result.stdout}` on a
non-zero exit code. -/
def deployToFly (_appPath : String) (appName : String) (code : Option Nat)
    (out err : String) : Except String Unit :=
  let result := executeFlyCommand ["deploy", "--app", appName] code out err
  if subprocessFailed result then
    .error ("Deployment failed: " ++ jsOrS result.stderr result.stdout)
  else
    .ok ()

/-- Database name derived in `provisionPostgres` (fly.ts line 287):
``const dbName = `${appName}-db` ``. -/
def dbNameFor (appName : String) : String := appName ++ "-db"

/-- Redis name derived in `provisionRedis` (fly.ts line 413):
``const redisName = `${appName}-redis` ``. -/
def redisNameFor (appName : String) : String := appName ++ "-redis"

/-- Tigris bucket name derived in `provisionTigris` (fly.ts line 467):
``const tigrisName = `${appName}-storage` ``. -/
def tigrisNameFor (appName : String) : String := appName ++ "-storage"

/-- Embedding of `generateFlyAppName` (init.ts lines 72–75): ``return `fare-${casinoName}` ``. -/
def generateFlyAppName (casinoName : String) : String := "fare-" ++ casinoName

/-- Character class `[a-z0-9]` of the cluster-line regex (fly.ts line 335). -/
def isDbChar (c : Char) : Bool :=
  (decide ('a' ≤ c) && decide (c ≤ 'z')) || (decide ('0' ≤ c) && decide (c ≤ '9'))

/-- Character class `\s` of the cluster-line regex; the CLI table output is
ASCII, where JavaScript `\s` coincides with `Char.isWhitespace`. -/
def isWsChar (c : Char) : Bool := c.isWhitespace

/-- Character class `\S` of the cluster-line regex. -/
def isNonWsChar (c : Char) : Bool := !c.isWhitespace

/-- One maximal-munch step of the regex: `p+` must match a non-empty prefix;
returns the matched run and the rest.  Every adjacent pair of classes in the
source regex is disjoint, so greedy matching without backtracking is exactly
the JavaScript regex semantics. -/
def takeWhile1 (p : Char → Bool) (cs : List Char) : Option (List Char × List Char) :=
  match cs.takeWhile p with
  | [] => none
  | taken => some (taken, cs.dropWhile p)

/-- The cluster-line regex of fly.ts line 335,
`/^([a-z0-9]+)\s+\S+\s+\S+\s+\S+\s+(\S+)/`: capture the cluster id, skip the
NAME, ORG and REGION columns, capture the STATUS column. -/
def parseClusterLine (line : String) : Option (String × String) := do
  let (idCs, r1) ← takeWhile1 isDbChar line.data
  let (_, r2) ← takeWhile1 isWsChar r1
  let (_, r3) ← takeWhile1 isNonWsChar r2
  let (_, r4) ← takeWhile1 isWsChar r3
  let (_, r5) ← takeWhile1 isNonWsChar r4
  let (_, r6) ← takeWhile1 isWsChar r5
  let (_, r7) ← takeWhile1 isNonWsChar r6
  let (_, r8) ← takeWhile1 isWsChar r7
  let (stCs, _) ← takeWhile1 isNonWsChar r8
  pure (String.mk idCs, String.mk stCs)

/-- Substring containment on character lists: the needle is a prefix of some
suffix of the haystack. -/
def containsSub (needle : List Char) : List Char → Bool
  | [] => needle.isEmpty
  | c :: rest => needle.isPrefixOf (c :: rest) || containsSub needle rest

/-- JavaScript `hay.includes(needle)`: substring containment. -/
def strIncludes (hay needle : String) : Bool :=
  containsSub needle.data hay.data

/-- JavaScript `stdout.split('\n')`, on character lists: split at every
newline, keeping empty segments (`""  ↦ [""]`, a trailing newline yields a
trailing empty segment). -/
def splitOnNl : List Char → List (List Char)
  | [] => [[]]
  | c :: rest =>
    let r := splitOnNl rest
    if c = '\n' then [] :: r
    else
      match r with
      | [] => [[c]]
      | l :: ls => (c :: l) :: ls

/-- Source expression `lines.find(line => line.includes(dbName))` (fly.ts lines 329–330):
the first line of the `mpg list` output containing the database name. -/
def findClusterLine (dbName stdout : String) : Option String :=
  ((splitOnNl stdout.data).map String.mk).find? (fun line => strIncludes line dbName)

/-- What one iteration of the poll loop extracts from its status query
(fly.ts lines 326–348): `none` when the query failed (non-zero exit), no
line mentions the database, or the regex does not match; otherwise the
cluster id and status. -/
def decodeAttempt (dbName : String) (r : CmdResult) : Option (String × String) :=
  if r.exitCode = 0 then
    match findClusterLine dbName r.stdout with
    | some line => parseClusterLine line
    | none => none
  else
    none

/-- The status the poll loop interprets on one attempt, if any. -/
def attemptStatus (dbName : String) (r : CmdResult) : Option String :=
  (decodeAttempt dbName r).map (fun p => p.2)

/-- Outcome of the poll loop of `provisionPostgres` (fly.ts lines 320–361):
either the cluster was seen `ready` (with its id and the 1-based attempt
at which this happened), or the attempt budget was exhausted. -/
inductive PollResult where
  | ready (clusterId : String) (attempt : Nat)
  | timedOut
  deriving Repr, DecidableEq

/-- The poll loop body (fly.ts lines 324–357): attempt index `i`, remaining
budget as fuel.  A parsed status equal to `"ready"` breaks out with the
cluster id; any other attempt (query failure, missing line, unparsable line,
or a non-ready status such as `failed`) just moves on to the next attempt. -/
def pollAux (dbName : String) (queries : Nat → CmdResult) : Nat → Nat → PollResult
  | _, 0 => .timedOut
  | i, fuel + 1 =>
    match decodeAttempt dbName (queries i) with
    | some (cid, status) =>
      if status = "ready" then .ready cid (i + 1)
      else pollAux dbName queries (i + 1) fuel
    | none => pollAux dbName queries (i + 1) fuel

/-- Source constant `maxRetries = 20` (fly.ts line 320). -/
def maxRetries : Nat := 20

/-- The whole poll loop of `provisionPostgres`, starting at attempt 0 with
the full budget.  `queries i` is the result of the `fly mpg list` call on
attempt `i`. -/
def pollClusterStatus (dbName : String) (queries : Nat → CmdResult) : PollResult :=
  pollAux dbName queries 0 maxRetries

/-- The error thrown when the poll budget is exhausted (fly.ts line 360). -/
def pollTimeoutMsg (dbName orgSlug : String) : String :=
  "Postgres cluster " ++ dbName ++ " is not ready after " ++
    toString (maxRetries * 3) ++ " seconds. Check with: fly mpg list --org " ++ orgSlug

/-- Source expression `result.stderr || result.stdout || 'Unknown error'` (fly.ts lines 309, 377). -/
def remoteErrText (r : CmdResult) : String :=
  jsOrS r.stderr (jsOrS r.stdout "Unknown error")

/-- Outcome of `JSON.parse` on the `mpg status --json` output followed by the
`statusData.credentials?.pgbouncer_uri` / `.password` accesses (fly.ts lines
388–393).  `JSON.parse` is an external runtime primitive, so the embedding
takes its outcome as an input: `parseError` when it throws, otherwise the two
(possibly absent) credential fields. -/
inductive StatusParse where
  | parseError
  | parsed (pgbouncerUri : Option String) (password : Option String)
  deriving Repr, DecidableEq

/-- External outcomes consumed by one run of `provisionPostgres`: the create
call, the per-attempt list calls, the attach call, the final status call and
the JSON decoding of its stdout. -/
structure PgEnv where
  createResult : CmdResult
  listResults : Nat → CmdResult
  attachResult : CmdResult
  statusResult : CmdResult
  parseStatus : String → StatusParse

/-- Embedding of `provisionPostgres` (fly.ts lines 282–403).  Phases: create the managed
Postgres cluster, poll `mpg list` until the status column reads `ready`
(the loop sets `clusterReady`/`clusterId`; the parsed id is non-empty, so the
`!clusterReady || !clusterId` check at line 359 reduces to the timeout case),
attach the cluster by id, then query `mpg status --json` for the connection
string — falling back to `postgresql://placeholder` / `unknown` when that
extraction fails in any way. -/
def provisionPostgres (appName orgSlug : String) (env : PgEnv) :
    Except String (String × String) :=
  let dbName := dbNameFor appName
  if subprocessFailed env.createResult then
    .error ("Failed to create Managed Postgres database: " ++ remoteErrText env.createResult)
  else
    match pollClusterStatus dbName env.listResults with
    | .timedOut => .error (pollTimeoutMsg dbName orgSlug)
    | .ready _clusterId _ =>
      if subprocessFailed env.attachResult then
        .error ("Failed to attach Managed Postgres database: " ++ remoteErrText env.attachResult)
      else
        if env.statusResult.exitCode = 0 then
          match env.parseStatus env.statusResult.stdout with
          | .parsed (some uri) pw =>
            if uri = "" then .ok ("postgresql://placeholder", "unknown")
            else .ok (uri, jsOrStr pw "unknown")
          | .parsed none _ => .ok ("postgresql://placeholder", "unknown")
          | .parseError => .ok ("postgresql://placeholder", "unknown")
        else
          .ok ("postgresql://placeholder", "unknown")

/-- External outcome consumed by `provisionRedis`: the GraphQL interaction
(lines 417–449) either fails with an error message or yields the created
add-on's `publicUrl` field (nullable). -/
structure RedisEnv where
  result : Except String (Option String)

/-- Embedding of `provisionRedis` (fly.ts lines 408–457): on success the URL is
``addOn.publicUrl || `redis://${redisName}.internal:6379` ``; every failure
is wrapped as `Failed to create Redis instance: ...`. -/
def provisionRedis (appName : String) (env : RedisEnv) : Except String String :=
  let redisName := redisNameFor appName
  match env.result with
  | .error e => .error ("Failed to create Redis instance: " ++ e)
  | .ok publicUrl => .ok (jsOrStr publicUrl ("redis://" ++ redisName ++ ".internal:6379"))

/-- External outcome consumed by `provisionTigris`: the GraphQL interaction
(lines 470–498) either fails with an error message or succeeds. -/
structure TigrisEnv where
  result : Except String Unit

/-- Embedding of `provisionTigris` (fly.ts lines 462–513): on success returns the derived
bucket name (the `credentials` field of the source result is unused by the
pipeline and omitted); every failure is wrapped as
`Failed to create Tigris storage: ...`. -/
def provisionTigris (appName : String) (env : TigrisEnv) : Except String String :=
  let tigrisName := tigrisNameFor appName
  match env.result with
  | .error e => .error ("Failed to create Tigris storage: " ++ e)
  | .ok _ => .ok tigrisName

/-- Source constant `CASINOS_DIR = path.join(os.homedir(), '.fare-casinos')` (git.ts line 8);
the home directory is an input of the embedding. -/
def casinosDirectory (home : String) : String := home ++ "/.fare-casinos"

/-- Embedding of `getCasinoPath` (git.ts lines 20–22): `path.join(CASINOS_DIR, casinoName)`. -/
def getCasinoPath (home casinoName : String) : String :=
  casinosDirectory home ++ "/" ++ casinoName

/-- The filesystem as the set of existing paths, for the clone/exists model. -/
structure FS where
  paths : List String
  deriving Repr, DecidableEq

/-- Create a path (`fs.mkdir`/a successful `git clone` target). -/
def fsAdd (fs : FS) (p : String) : FS := ⟨p :: fs.paths⟩

/-- Model of `fs.rm(path, recursive and force)`: removes the path,
no error when it is absent. -/
def fsRemove (fs : FS) (p : String) : FS := ⟨fs.paths.filter (fun q => q ≠ p)⟩

/-- Embedding of `casinoExists` (git.ts lines 38–46): `fs.access` succeeds exactly when
the casino path exists. -/
def casinoExists (fs : FS) (home casinoName : String) : Bool :=
  fs.paths.contains (getCasinoPath home casinoName)

/-- Embedding of `ensureCasinosDirectory` (git.ts lines 27–33): `mkdir -p` of the base
directory. -/
def ensureCasinosDirectory (home : String) (fs : FS) : FS :=
  fsAdd fs (casinosDirectory home)

/-- String interpolation of the `close` code in the clone error message:
`null` prints as `null`. -/
def codeText (code : Option Nat) : String :=
  match code with
  | none => "null"
  | some n => toString n

/-- External outcome of the spawned `git clone`: the `close` code (`null`
when killed by a signal), the collected stderr (git progress output), and
whether the aborted clone left a partially created target directory behind. -/
structure CloneEnv where
  gitCode : Option Nat
  gitStderr : String
  partialCreated : Bool

/-- Embedding of `cloneCasinoBackend` (git.ts lines 51–98): ensure the base directory,
refuse if the target already exists, then clone.  `if (code === 0)` resolves
with the casino path (the clone created the directory); on any other code the
partially created directory is removed (`fs.rm` recursive force, cleanup
errors ignored) before rejecting with the exit code and the collected
stderr. -/
def cloneCasinoBackend (home casinoName : String) (env : CloneEnv) (fs : FS) :
    Except String String × FS :=
  let fs1 := ensureCasinosDirectory home fs
  let casinoPath := getCasinoPath home casinoName
  if casinoExists fs1 home casinoName then
    (.error ("Casino directory already exists at " ++ casinoPath ++
      ". Please choose a different name or remove the existing directory."), fs1)
  else
    match env.gitCode with
    | some 0 => (.ok casinoPath, fsAdd fs1 casinoPath)
    | code =>
      let fs2 := if env.partialCreated then fsAdd fs1 casinoPath else fs1
      let fs3 := fsRemove fs2 casinoPath
      (.error ("Failed to clone repository (exit code " ++ codeText code ++ "): " ++
        env.gitStderr), fs3)

/-- Embedding of `CasinoConfig` (src/types.ts): the wizard-produced fields plus the
resource descriptors filled in by the pipeline. -/
structure CasinoConfig where
  casinoName : String
  ownerWallet : String
  jwtSecret : String
  solanaRpcUrl : String
  postgresUrl : Option String
  redisUrl : Option String
  tigrisBucket : Option String
  databasePassword : Option String
  deriving Repr, DecidableEq

/-- Embedding of `InitContext` (init.ts lines 31–38); `casinoPath` and `postgresPassword`
are absent in the partial seed context and filled in by tasks. -/
structure InitContext where
  casinoName : String
  casinoPath : Option String
  config : CasinoConfig
  flyAppName : String
  flyOrgSlug : String
  postgresPassword : Option String
  deriving Repr, DecidableEq

/-- One Listr task of the init pipeline: a title and an effectful action on
the shared context (init.ts lines 189–271). -/
structure PipeTask (σ : Type) where
  title : String
  action : σ → Except String σ

/-- A pipeline abort: the failing task's title, its error message, and the
shared context object as it stood when the task threw. -/
structure PipeFailure (σ : Type) where
  title : String
  message : String
  ctx : σ
  deriving Repr, DecidableEq

/-- Modelled from the spec: the Listr2 task runner (a third-party library,
not part of `src/`) runs the tasks strictly in order on the shared context
and aborts at the first failing task, reporting that task (spec §4.1,
TaskPipeline contract).  The first component records the titles of the tasks
whose actions were invoked. -/
def runTasksTrace {σ : Type} : List (PipeTask σ) → σ → List String × Except (PipeFailure σ) σ
  | [], ctx => ([], .ok ctx)
  | t :: ts, ctx =>
    match t.action ctx with
    | .error e => ([t.title], .error ⟨t.title, e, ctx⟩)
    | .ok ctx' =>
      let rest := runTasksTrace ts ctx'
      (t.title :: rest.1, rest.2)

/-- The pipeline outcome alone (the trace forgotten). -/
def runTasks {σ : Type} (ts : List (PipeTask σ)) (ctx : σ) : Except (PipeFailure σ) σ :=
  (runTasksTrace ts ctx).2

/-- External outcomes consumed by one `fare init` pipeline run, one per
task that performs external work (init.ts lines 189–271). -/
structure InitEnv where
  cloneResult : Except String String
  installResult : Except String Unit
  prismaResult : Except String Unit
  buildResult : Except String Unit
  createAppResult : Except String Unit
  redisEnv : RedisEnv
  tigrisEnv : TigrisEnv
  pgEnv : PgEnv
  saveConfigResult : Except String Unit
  setSecretsResult : Except String Unit
  deployResult : Except String Unit

/-- The context seeded at init.ts lines 181–186: casino name, wizard config,
derived fly app name, selected organization; `casinoPath` and
`postgresPassword` not yet populated. -/
def seedContext (casinoName : String) (cfg : CasinoConfig) (orgSlug : String) : InitContext :=
  { casinoName := casinoName
    casinoPath := none
    config := cfg
    flyAppName := generateFlyAppName casinoName
    flyOrgSlug := orgSlug
    postgresPassword := none }

/-- The eleven tasks of the init pipeline (init.ts lines 189–271), each
updating exactly the context fields the source assigns. -/
def initTasks (env : InitEnv) : List (PipeTask InitContext) :=
  [ { title := "Cloning custom-casino-backend repository"
      action := fun ctx => env.cloneResult.map (fun p => { ctx with casinoPath := some p }) }
  , { title := "Installing dependencies"
      action := fun ctx => env.installResult.map (fun _ => ctx) }
  , { title := "Generating Prisma client"
      action := fun ctx => env.prismaResult.map (fun _ => ctx) }
  , { title := "Building project"
      action := fun ctx => env.buildResult.map (fun _ => ctx) }
  , { title := "Creating Fly.io app"
      action := fun ctx => env.createAppResult.map (fun _ => ctx) }
  , { title := "Provisioning Redis instance"
      action := fun ctx => (provisionRedis ctx.flyAppName env.redisEnv).map
        (fun url => { ctx with config := { ctx.config with redisUrl := some url } }) }
  , { title := "Provisioning Tigris object storage"
      action := fun ctx => (provisionTigris ctx.flyAppName env.tigrisEnv).map
        (fun bn => { ctx with config := { ctx.config with tigrisBucket := some bn } }) }
  , { title := "Provisioning Postgres database"
      action := fun ctx => (provisionPostgres ctx.flyAppName ctx.flyOrgSlug env.pgEnv).map
        (fun cp => { ctx with
          config := { ctx.config with postgresUrl := some cp.1, databasePassword := some cp.2 }
          postgresPassword := some cp.2 }) }
  , { title := "Generating configuration files"
      action := fun ctx => env.saveConfigResult.map (fun _ => ctx) }
  , { title := "Setting environment secrets"
      action := fun ctx => env.setSecretsResult.map (fun _ => ctx) }
  , { title := "Deploying to Fly.io"
      action := fun ctx => env.deployResult.map (fun _ => ctx) }
  ]

/-- One step of the staged pipeline run: apply task `n` (no-op past the end),
wrapping a thrown error together with the context it was thrown on. -/
def stepAt (env : InitEnv) (n : Nat) (c : InitContext) : Except (PipeFailure InitContext) InitContext :=
  match (initTasks env).get? n with
  | none => .ok c
  | some t =>
    match t.action c with
    | .ok c' => .ok c'
    | .error e => .error ⟨t.title, e, c⟩

/-- The pipeline run stopped after its first `n` tasks. -/
def runPrefix (env : InitEnv) (c0 : InitContext) : Nat → Except (PipeFailure InitContext) InitContext
  | 0 => .ok c0
  | n + 1 =>
    match runPrefix env c0 n with
    | .ok c => stepAt env n c
    | .error f => .error f

/-- Forget the error of an `Except`. -/
def exceptToOption {ε α : Type} : Except ε α → Option α
  | .ok a => some a
  | .error _ => none

/-- The casino path the clone task populates, when it succeeds. -/
def cloneOpt (env : InitEnv) : Option String := exceptToOption env.cloneResult

/-- The Redis URL the Redis task populates, when it succeeds. -/
def redisOpt (env : InitEnv) (casinoName : String) : Option String :=
  exceptToOption (provisionRedis (generateFlyAppName casinoName) env.redisEnv)

/-- The bucket name the Tigris task populates, when it succeeds. -/
def tigrisOpt (env : InitEnv) (casinoName : String) : Option String :=
  exceptToOption (provisionTigris (generateFlyAppName casinoName) env.tigrisEnv)

/-- The connection string and password the Postgres task populates, when it
succeeds. -/
def pgOpt (env : InitEnv) (casinoName orgSlug : String) : Option (String × String) :=
  exceptToOption (provisionPostgres (generateFlyAppName casinoName) orgSlug env.pgEnv)

theorem pollAux_step (d : String) (q : Nat → CmdResult) (i fuel : Nat) :
    pollAux d q i (fuel + 1) =
      match decodeAttempt d (q i) with
      | some (cid, status) =>
        if status = "ready" then .ready cid (i + 1) else pollAux d q (i + 1) fuel
      | none => pollAux d q (i + 1) fuel := rfl

theorem pollAux_none (d : String) (q : Nat → CmdResult) (i fuel : Nat)
    (h : decodeAttempt d (q i) = none) :
    pollAux d q i (fuel + 1) = pollAux d q (i + 1) fuel := by
  rw [pollAux_step, h]

theorem pollAux_decoded (d : String) (q : Nat → CmdResult) (i fuel : Nat)
    (cid st : String) (h : decodeAttempt d (q i) = some (cid, st)) :
    pollAux d q i (fuel + 1) =
      if st = "ready" then .ready cid (i + 1) else pollAux d q (i + 1) fuel := by
  rw [pollAux_step, h]

theorem pollAux_timeout (d : String) (q : Nat → CmdResult) :
    ∀ fuel i, (∀ j, i ≤ j → j < i + fuel → attemptStatus d (q j) ≠ some "ready") →
    pollAux d q i fuel = .timedOut := by
  intro fuel
  induction fuel with
  | zero => intro i _; rfl
  | succ n ih =>
    intro i h
    cases hd : decodeAttempt d (q i) with
    | none =>
      rw [pollAux_none d q i n hd]
      exact ih (i + 1) (fun j hj1 hj2 => h j (by omega) (by omega))
    | some p =>
      obtain ⟨cid, st⟩ := p
      have hst : st ≠ "ready" := by
        intro he
        exact h i (le_refl i) (by omega) (by simp [attemptStatus, hd, he])
      rw [pollAux_decoded d q i n cid st hd, if_neg hst]
      exact ih (i + 1) (fun j hj1 hj2 => h j (by omega) (by omega))

theorem pollAux_ready (d : String) (q : Nat → CmdResult) :
    ∀ fuel i k cid, i ≤ k → k < i + fuel →
    (∀ j, i ≤ j → j < k → attemptStatus d (q j) ≠ some "ready") →
    decodeAttempt d (q k) = some (cid, "ready") →
    pollAux d q i fuel = .ready cid (k + 1) := by
  intro fuel
  induction fuel with
  | zero => intro i k cid h1 h2 _ _; omega
  | succ n ih =>
    intro i k cid h1 h2 hbefore hk
    rcases Nat.eq_or_lt_of_le h1 with heq | hlt
    · subst heq
      rw [pollAux_decoded d q i n cid "ready" hk, if_pos rfl]
    · have hi : attemptStatus d (q i) ≠ some "ready" := hbefore i (le_refl i) hlt
      cases hd : decodeAttempt d (q i) with
      | none =>
        rw [pollAux_none d q i n hd]
        exact ih (i + 1) k cid (by omega) (by omega)
          (fun j hj1 hj2 => hbefore j (by omega) hj2) hk
      | some p =>
        obtain ⟨cid', st⟩ := p
        have hst : st ≠ "ready" := by
          intro he
          exact hi (by simp [attemptStatus, hd, he])
        rw [pollAux_decoded d q i n cid' st hd, if_neg hst]
        exact ih (i + 1) k cid (by omega) (by omega)
          (fun j hj1 hj2 => hbefore j (by omega) hj2) hk

/-- C6: if the first attempt whose interpreted status is `ready` is attempt
`k+1` (1-based, `k < maxRetries`), the poll loop returns success with the
cluster id extracted on that attempt, and the outcome is the same for every
query stream that agrees with the observed one up to attempt `k` — that is,
no status query after the `ready` attempt can influence the result, so
attempt `k+2` is never issued. -/
theorem c6_ready_stops_polling (appName : String) (q q' : Nat → CmdResult)
    (k : Nat) (cid : String) (hk : k < maxRetries)
    (hbefore : ∀ j, j < k → attemptStatus (dbNameFor appName) (q j) ≠ some "ready")
    (hready : decodeAttempt (dbNameFor appName) (q k) = some (cid, "ready"))
    (hagree : ∀ j, j ≤ k → q' j = q j) :
    pollClusterStatus (dbNameFor appName) q = .ready cid (k + 1) ∧
    pollClusterStatus (dbNameFor appName) q' = .ready cid (k + 1) := by
  constructor
  · exact pollAux_ready _ q maxRetries 0 k cid (Nat.zero_le k) (by omega)
      (fun j _ hj2 => hbefore j hj2) hready
  · refine pollAux_ready _ q' maxRetries 0 k cid (Nat.zero_le k) (by omega)
      (fun j _ hj2 => ?_) ?_
    · rw [hagree j (by omega)]
      exact hbefore j hj2
    · rw [hagree k (le_refl k)]
      exact hready

/-- C6 witness: a concrete stream that is `ready` on the first attempt; the
poll returns on attempt 1 with the parsed id, and changing every later
attempt's answer does not change the outcome. -/
theorem c6_ready_stops_polling_witness :
    pollClusterStatus (dbNameFor "my-app")
      (fun _ => ⟨"abc123 my-app-db personal iad ready basic", "", 0⟩) = .ready "abc123" 1 ∧
    pollClusterStatus (dbNameFor "my-app")
      (fun i => if i = 0 then ⟨"abc123 my-app-db personal iad ready basic", "", 0⟩
                else ⟨"", "network down", 1⟩) = .ready "abc123" 1 :=
  c6_ready_stops_polling "my-app"
    (fun _ => ⟨"abc123 my-app-db personal iad ready basic", "", 0⟩)
    (fun i => if i = 0 then ⟨"abc123 my-app-db personal iad ready basic", "", 0⟩
              else ⟨"", "network down", 1⟩)
    0 "abc123" (by decide) (fun j hj => by omega) (by decide)
    (fun j hj => by interval_cases j; decide)

/-- C7: a status query that fails (non-zero exit code) decodes to no
cluster information, and such a non-matching attempt makes the loop proceed
to the next attempt rather than abort; when no attempt within the budget
interprets as `ready`, the poll ends as `timedOut`, and the error message
built for that case spells out the manual-inspection command. -/
theorem c7_query_failure_tolerated (appName orgSlug : String) (q : Nat → CmdResult) :
    (∀ r : CmdResult, r.exitCode ≠ 0 → decodeAttempt (dbNameFor appName) r = none) ∧
    (∀ i fuel, decodeAttempt (dbNameFor appName) (q i) = none →
      pollAux (dbNameFor appName) q i (fuel + 1) = pollAux (dbNameFor appName) q (i + 1) fuel) ∧
    ((∀ i, i < maxRetries → attemptStatus (dbNameFor appName) (q i) ≠ some "ready") →
      pollClusterStatus (dbNameFor appName) q = .timedOut) ∧
    pollTimeoutMsg (dbNameFor appName) orgSlug =
      "Postgres cluster " ++ dbNameFor appName ++ " is not ready after " ++ toString 60 ++
        " seconds. Check with: fly mpg list --org " ++ orgSlug := by
  refine ⟨?_, ?_, ?_, rfl⟩
  · intro r h
    simp [decodeAttempt, h]
  · intro i fuel h
    rw [pollAux_step, h]
  · intro h
    exact pollAux_timeout _ q maxRetries 0 (fun j _ hj2 => h j (by omega))

/-- C7 witness: every status query fails with exit code 1; the poll runs
through its whole budget and times out. -/
theorem c7_query_failure_tolerated_witness :
    pollClusterStatus (dbNameFor "my-app") (fun _ => ⟨"", "network down", 1⟩) = .timedOut :=
  (c7_query_failure_tolerated "my-app" "personal" (fun _ => ⟨"", "network down", 1⟩)).2.2.1
    (by decide)

/-- C1 counterexample: the poll loop has no terminal `Failed` outcome.  With
a stream whose first attempt parses to status `failed` and whose second
parses to `ready`, the loop issues and uses the second query (returning
success at attempt 2) instead of returning a failure at attempt 1; and when
every attempt reports `failed`, the loop exhausts all 20 attempts and ends
in the same `timedOut` outcome as any other non-ready stream. -/
theorem c1_failed_status_counterexample :
    attemptStatus (dbNameFor "my-app")
      ⟨"abc123 my-app-db personal iad failed basic", "", 0⟩ = some "failed" ∧
    pollClusterStatus (dbNameFor "my-app")
      (fun i => if i = 0 then ⟨"abc123 my-app-db personal iad failed basic", "", 0⟩
                else ⟨"abc123 my-app-db personal iad ready basic", "", 0⟩) = .ready "abc123" 2 ∧
    pollClusterStatus (dbNameFor "my-app")
      (fun _ => ⟨"abc123 my-app-db personal iad failed basic", "", 0⟩) = .timedOut := by
  refine ⟨by decide, by decide, by decide⟩

/-- C1 (amended): the loop recognizes no terminal failure status: an attempt
whose interpreted status is `failed` just advances the loop, and when every
attempt within the budget interprets as `failed` the poll ends in the
`timedOut` outcome — the attempt-budget exhaustion — not in a distinct
immediate failure. -/
theorem c1_failed_status_continues (appName : String) (q : Nat → CmdResult) :
    (∀ i fuel cid, decodeAttempt (dbNameFor appName) (q i) = some (cid, "failed") →
      pollAux (dbNameFor appName) q i (fuel + 1) = pollAux (dbNameFor appName) q (i + 1) fuel) ∧
    ((∀ i, i < maxRetries → attemptStatus (dbNameFor appName) (q i) = some "failed") →
      pollClusterStatus (dbNameFor appName) q = .timedOut) := by
  constructor
  · intro i fuel cid h
    rw [pollAux_step, h]
    rfl
  · intro h
    refine pollAux_timeout _ q maxRetries 0 (fun j _ hj2 hready => ?_)
    rw [h j (by omega)] at hready
    exact absurd (Option.some.injEq _ _ ▸ hready) (by decide)

/-- C1 amended witness: all attempts report `failed`; after the full budget
the poll returns `timedOut`. -/
theorem c1_failed_status_continues_witness :
    pollClusterStatus (dbNameFor "my-app")
      (fun _ => ⟨"abc123 my-app-db personal iad failed basic", "", 0⟩) = .timedOut :=
  (c1_failed_status_continues "my-app"
    (fun _ => ⟨"abc123 my-app-db personal iad failed basic", "", 0⟩)).2 (by decide)

/-- C8: resource names are pure deterministic functions of the application
name and the resource kind — `<app>-db`, `<app>-redis`, `<app>-storage` —
identical across repeated applications and pairwise distinct for a fixed
application. -/
theorem c8_resource_naming (a : String) :
    dbNameFor a = dbNameFor a ∧
    redisNameFor a = redisNameFor a ∧
    tigrisNameFor a = tigrisNameFor a ∧
    dbNameFor a ≠ redisNameFor a ∧
    dbNameFor a ≠ tigrisNameFor a ∧
    redisNameFor a ≠ tigrisNameFor a := by
  refine ⟨rfl, rfl, rfl, ?_, ?_, ?_⟩ <;>
  · intro h
    have hl := congrArg String.length h
    simp only [dbNameFor, redisNameFor, tigrisNameFor, String.length_append] at hl
    have e1 : ("-db" : String).length = 3 := rfl
    have e2 : ("-redis" : String).length = 6 := rfl
    have e3 : ("-storage" : String).length = 8 := rfl
    omega

/-- C3: across both subprocess gateways, an invocation is classified as a
failure exactly when the reported exit code is a non-zero number; a
termination whose runtime code is `null`/absent (killed by a signal) is
normalized to exit code 0 and classified as success, so the rule covers
every possible termination; and the failure raised by a caller carries the
captured stderr (npm) resp. stderr-else-stdout (fly) as diagnostic text. -/
theorem c3_exit_code_classification (args : List String) (cwd appName : String)
    (code : Option Nat) (out err : String) :
    (subprocessFailed (executeFlyCommand args code out err) = true ↔
      ∃ c, code = some c ∧ c ≠ 0) ∧
    (subprocessFailed (executeNpmCommand args cwd code out err) = true ↔
      ∃ c, code = some c ∧ c ≠ 0) ∧
    subprocessFailed (executeFlyCommand args none out err) = false ∧
    subprocessFailed (executeNpmCommand args cwd none out err) = false ∧
    (∀ c, c ≠ 0 → installDependencies cwd (some c) out err =
      .error ("Failed to install dependencies: " ++ err)) ∧
    (∀ c, c ≠ 0 → deployToFly cwd appName (some c) out err =
      .error ("Deployment failed: " ++ jsOrS err out)) ∧
    installDependencies cwd none out err = .ok () ∧
    deployToFly cwd appName none out err = .ok () := by
  refine ⟨?_, ?_, rfl, rfl, ?_, ?_, rfl, rfl⟩
  · cases code with
    | none => simp [subprocessFailed, executeFlyCommand, closeExitCode]
    | some c => simp [subprocessFailed, executeFlyCommand, closeExitCode]
  · cases code with
    | none => simp [subprocessFailed, executeNpmCommand, closeExitCode]
    | some c => simp [subprocessFailed, executeNpmCommand, closeExitCode]
  · intro c hc
    simp [installDependencies, executeNpmCommand, subprocessFailed, closeExitCode, hc]
  · intro c hc
    simp [deployToFly, executeFlyCommand, subprocessFailed, closeExitCode, hc]

/-- C3 witness: concrete classifications — exit 7 is a failure carrying the
captured stderr, a signal-killed invocation (null code) is a success. -/
theorem c3_exit_code_classification_witness :
    installDependencies "/work" (some 7) "npm out" "npm err" =
      .error ("Failed to install dependencies: " ++ "npm err") ∧
    deployToFly "/work" "fare-demo" none "fly out" "fly err" = .ok () :=
  ⟨(c3_exit_code_classification [] "/work" "fare-demo" (some 7) "npm out" "npm err").2.2.2.2.1
      7 (by decide),
   (c3_exit_code_classification [] "/work" "fare-demo" none "fly out" "fly err").2.2.2.2.2.2.2⟩

/-- C10: `cloneCasinoBackend` is atomic with respect to the casino
directory: starting from a filesystem where the casino does not exist, a
clone whose git process does not exit with code 0 removes the partially
created directory and returns a failure (`casinoExists` is false
afterwards), while a clone exiting 0 returns the casino path and the
directory exists. -/
theorem c10_clone_atomic (home name : String) (env : CloneEnv) (fs : FS)
    (hnotex : casinoExists fs home name = false) :
    (env.gitCode = some 0 →
      (cloneCasinoBackend home name env fs).1 = .ok (getCasinoPath home name) ∧
      casinoExists (cloneCasinoBackend home name env fs).2 home name = true) ∧
    (env.gitCode ≠ some 0 →
      (∃ m, (cloneCasinoBackend home name env fs).1 = .error m) ∧
      casinoExists (cloneCasinoBackend home name env fs).2 home name = false) := by
  have hbase : getCasinoPath home name ≠ casinosDirectory home := by
    intro h
    have hl := congrArg String.length h
    simp only [getCasinoPath, String.length_append] at hl
    have e1 : ("/" : String).length = 1 := rfl
    omega
  have hnot : getCasinoPath home name ∉ fs.paths := by
    simpa [casinoExists] using hnotex
  have hex1 : casinoExists (ensureCasinosDirectory home fs) home name = false := by
    simp [casinoExists, ensureCasinosDirectory, fsAdd, hbase, hnot]
  constructor
  · intro h0
    unfold cloneCasinoBackend
    dsimp only
    rw [hex1]
    simp only [Bool.false_eq_true, if_false, h0]
    constructor
    · trivial
    · simp [casinoExists, fsAdd]
  · intro hne
    unfold cloneCasinoBackend
    dsimp only
    rw [hex1]
    simp only [Bool.false_eq_true, if_false]
    cases hc : env.gitCode with
    | none =>
      refine ⟨⟨_, rfl⟩, ?_⟩
      simp [casinoExists, fsRemove]
    | some c =>
      cases c with
      | zero => exact absurd hc hne
      | succ c' =>
        refine ⟨⟨_, rfl⟩, ?_⟩
        simp [casinoExists, fsRemove]

/-- C10 witness: a concrete failed clone (exit 128) leaves no casino
directory behind; a concrete successful clone creates it. -/
theorem c10_clone_atomic_witness :
    ((cloneCasinoBackend "/root" "demo" ⟨some 128, "fatal: repo not found", true⟩ ⟨[]⟩).1 =
      .ok (getCasinoPath "/root" "demo") → False) ∧
    casinoExists (cloneCasinoBackend "/root" "demo" ⟨some 128, "fatal: repo not found", true⟩ ⟨[]⟩).2
      "/root" "demo" = false ∧
    (cloneCasinoBackend "/root" "demo" ⟨some 0, "", false⟩ ⟨[]⟩).1 =
      .ok (getCasinoPath "/root" "demo") ∧
    casinoExists (cloneCasinoBackend "/root" "demo" ⟨some 0, "", false⟩ ⟨[]⟩).2
      "/root" "demo" = true := by
  have h1 := (c10_clone_atomic "/root" "demo" ⟨some 128, "fatal: repo not found", true⟩ ⟨[]⟩
    (by decide)).2 (by decide)
  have h2 := (c10_clone_atomic "/root" "demo" ⟨some 0, "", false⟩ ⟨[]⟩ (by decide)).1 rfl
  refine ⟨?_, h1.2, h2.1, h2.2⟩
  intro hok
  obtain ⟨m, hm⟩ := h1.1
  rw [hok] at hm
  exact Except.noConfusion hm

/-- C2 counterexample: with the create, poll and attach phases all
succeeding but the final `mpg status` query failing (exit code 1), the
extraction of the connection descriptor fails and yet `provisionPostgres`
returns successfully — with the fabricated placeholder connection string
and password, not a failure. -/
theorem c2_placeholder_counterexample :
    provisionPostgres "my-app" "personal"
      { createResult := ⟨"Created cluster", "", 0⟩
      , listResults := fun _ => ⟨"abc123 my-app-db personal iad ready basic", "", 0⟩
      , attachResult := ⟨"Attached", "", 0⟩
      , statusResult := ⟨"", "connection refused", 1⟩
      , parseStatus := fun _ => .parseError } =
    .ok ("postgresql://placeholder", "unknown") := rfl

/-- C2 (amended): the create and attach phases surface the remote error
text (stderr, else stdout, else `Unknown error`) verbatim inside a message
identifying the resource and phase, and the readiness timeout produces an
identifying error; but when the connection-descriptor extraction fails in
any of its modes — non-zero exit of the status query, unparsable JSON, or a
missing or empty `pgbouncer_uri` field — `provisionPostgres` returns
successfully with the placeholder descriptor `postgresql://placeholder` /
`unknown` instead of a failure. -/
theorem c2_phase_errors_and_placeholder (appName orgSlug : String) (env : PgEnv) :
    (subprocessFailed env.createResult = true →
      provisionPostgres appName orgSlug env =
        .error ("Failed to create Managed Postgres database: " ++
          remoteErrText env.createResult)) ∧
    (subprocessFailed env.createResult = false →
      pollClusterStatus (dbNameFor appName) env.listResults = .timedOut →
      provisionPostgres appName orgSlug env =
        .error (pollTimeoutMsg (dbNameFor appName) orgSlug)) ∧
    (∀ cid a, subprocessFailed env.createResult = false →
      pollClusterStatus (dbNameFor appName) env.listResults = .ready cid a →
      subprocessFailed env.attachResult = true →
      provisionPostgres appName orgSlug env =
        .error ("Failed to attach Managed Postgres database: " ++
          remoteErrText env.attachResult)) ∧
    (∀ cid a, subprocessFailed env.createResult = false →
      pollClusterStatus (dbNameFor appName) env.listResults = .ready cid a →
      subprocessFailed env.attachResult = false →
      (env.statusResult.exitCode ≠ 0 ∨
        env.parseStatus env.statusResult.stdout = .parseError ∨
        (∃ pw, env.parseStatus env.statusResult.stdout = .parsed none pw) ∨
        (∃ pw, env.parseStatus env.statusResult.stdout = .parsed (some "") pw)) →
      provisionPostgres appName orgSlug env = .ok ("postgresql://placeholder", "unknown")) := by
  refine ⟨?_, ?_, ?_, ?_⟩
  · intro h
    simp [provisionPostgres, h]
  · intro h1 h2
    simp [provisionPostgres, h1, h2]
  · intro cid a h1 h2 h3
    simp [provisionPostgres, h1, h2, h3]
  · intro cid a h1 h2 h3 h4
    rcases h4 with h4 | h4 | ⟨pw, h4⟩ | ⟨pw, h4⟩
    · simp [provisionPostgres, h1, h2, h3, h4]
    · by_cases he : env.statusResult.exitCode = 0
      · simp [provisionPostgres, h1, h2, h3, he, h4]
      · simp [provisionPostgres, h1, h2, h3, he]
    · by_cases he : env.statusResult.exitCode = 0
      · simp [provisionPostgres, h1, h2, h3, he, h4]
      · simp [provisionPostgres, h1, h2, h3, he]
    · by_cases he : env.statusResult.exitCode = 0
      · simp [provisionPostgres, h1, h2, h3, he, h4]
      · simp [provisionPostgres, h1, h2, h3, he]

/-- C2 amended witness: concrete runs exercising each clause — a failed
create surfaces its stderr verbatim, an exhausted poll yields the timeout
error, a failed attach surfaces its stderr verbatim, and extraction failing
through an unparsable JSON body resp. a missing `pgbouncer_uri` still
returns the placeholder pair successfully. -/
theorem c2_phase_errors_and_placeholder_witness :
    provisionPostgres "my-app" "personal"
      { createResult := ⟨"", "Error: name already taken", 1⟩
      , listResults := fun _ => ⟨"", "", 1⟩
      , attachResult := ⟨"", "", 0⟩
      , statusResult := ⟨"", "", 0⟩
      , parseStatus := fun _ => .parseError } =
      .error ("Failed to create Managed Postgres database: " ++
        remoteErrText ⟨"", "Error: name already taken", 1⟩) ∧
    provisionPostgres "my-app" "personal"
      { createResult := ⟨"Created", "", 0⟩
      , listResults := fun _ => ⟨"", "transient error", 1⟩
      , attachResult := ⟨"", "", 0⟩
      , statusResult := ⟨"", "", 0⟩
      , parseStatus := fun _ => .parseError } =
      .error (pollTimeoutMsg (dbNameFor "my-app") "personal") ∧
    provisionPostgres "my-app" "personal"
      { createResult := ⟨"Created", "", 0⟩
      , listResults := fun _ => ⟨"abc123 my-app-db personal iad ready basic", "", 0⟩
      , attachResult := ⟨"", "Error: attach denied", 1⟩
      , statusResult := ⟨"", "", 0⟩
      , parseStatus := fun _ => .parseError } =
      .error ("Failed to attach Managed Postgres database: " ++
        remoteErrText ⟨"", "Error: attach denied", 1⟩) ∧
    provisionPostgres "my-app" "personal"
      { createResult := ⟨"Created", "", 0⟩
      , listResults := fun _ => ⟨"abc123 my-app-db personal iad ready basic", "", 0⟩
      , attachResult := ⟨"Attached", "", 0⟩
      , statusResult := ⟨"not json", "", 0⟩
      , parseStatus := fun _ => .parseError } =
      .ok ("postgresql://placeholder", "unknown") ∧
    provisionPostgres "my-app" "personal"
      { createResult := ⟨"Created", "", 0⟩
      , listResults := fun _ => ⟨"abc123 my-app-db personal iad ready basic", "", 0⟩
      , attachResult := ⟨"Attached", "", 0⟩
      , statusResult := ⟨"no credentials", "", 0⟩
      , parseStatus := fun _ => .parsed none (some "pw")} =
      .ok ("postgresql://placeholder", "unknown") :=
  ⟨(c2_phase_errors_and_placeholder "my-app" "personal" _).1 (by decide),
   (c2_phase_errors_and_placeholder "my-app" "personal" _).2.1 (by decide) (by decide),
   (c2_phase_errors_and_placeholder "my-app" "personal" _).2.2.1 "abc123" 1
     (by decide) (by decide) (by decide),
   (c2_phase_errors_and_placeholder "my-app" "personal" _).2.2.2 "abc123" 1
     (by decide) (by decide) (by decide) (Or.inr (Or.inl rfl)),
   (c2_phase_errors_and_placeholder "my-app" "personal" _).2.2.2 "abc123" 1
     (by decide) (by decide) (by decide) (Or.inr (Or.inr (Or.inl ⟨some "pw", rfl⟩)))⟩

/-- C4: the task pipeline executes actions strictly in order and stops at
the first failing task: for any tasks `t1` (succeeding), `t2` (failing) and
any further tasks, exactly `t1` and `t2` are invoked (the trace), the later
tasks never run (the result does not depend on them), and the returned
failure carries `t2`'s title and error. -/
theorem c4_pipeline_stops_at_first_failure {σ : Type} (t1 t2 : PipeTask σ)
    (rest : List (PipeTask σ)) (ctx c1 : σ) (e : String)
    (h1 : t1.action ctx = .ok c1) (h2 : t2.action c1 = .error e) :
    runTasksTrace (t1 :: t2 :: rest) ctx =
      ([t1.title, t2.title], .error ⟨t2.title, e, c1⟩) := by
  simp [runTasksTrace, h1, h2]

/-- C4 witness: three concrete tasks over `Nat` contexts; only the first
two titles are traced and the failure names the second task. -/
theorem c4_pipeline_stops_at_first_failure_witness :
    runTasksTrace
      [ ⟨"T1", fun n => .ok (n + 1)⟩
      , ⟨"T2", fun _ => .error "boom"⟩
      , ⟨"T3", fun n => .ok (n + 10)⟩ ] 0 =
      (["T1", "T2"], .error ⟨"T2", "boom", 1⟩) :=
  c4_pipeline_stops_at_first_failure ⟨"T1", fun n => .ok (n + 1)⟩ ⟨"T2", fun _ => .error "boom"⟩
    [⟨"T3", fun n => .ok (n + 10)⟩] 0 1 "boom" rfl rfl

/-- C5: when every earlier step succeeds but the database's status never
interprets as `ready` within the 20-attempt budget, the pipeline aborts with
the timeout error attributed to the `Provisioning Postgres database` task,
and the context at the abort still holds the Redis URL and Tigris bucket
written by the earlier steps, with the Postgres fields untouched. -/
theorem c5_db_timeout_preserves_earlier_fields (name org : String) (cfg : CasinoConfig)
    (env : InitEnv) (p : String) (pub : Option String)
    (h0 : env.cloneResult = .ok p)
    (h1 : env.installResult = .ok ())
    (h2 : env.prismaResult = .ok ())
    (h3 : env.buildResult = .ok ())
    (h4 : env.createAppResult = .ok ())
    (h5 : env.redisEnv.result = .ok pub)
    (h6 : env.tigrisEnv.result = .ok ())
    (h7 : subprocessFailed env.pgEnv.createResult = false)
    (h8 : ∀ i, i < maxRetries →
      attemptStatus (dbNameFor (generateFlyAppName name)) (env.pgEnv.listResults i) ≠ some "ready") :
    ∃ ctxF,
      runTasks (initTasks env) (seedContext name cfg org) =
        .error ⟨"Provisioning Postgres database",
                pollTimeoutMsg (dbNameFor (generateFlyAppName name)) org, ctxF⟩ ∧
      ctxF.config.redisUrl =
        some (jsOrStr pub ("redis://" ++ redisNameFor (generateFlyAppName name) ++ ".internal:6379")) ∧
      ctxF.config.tigrisBucket = some (tigrisNameFor (generateFlyAppName name)) ∧
      ctxF.config.postgresUrl = cfg.postgresUrl ∧
      ctxF.config.databasePassword = cfg.databasePassword ∧
      ctxF.postgresPassword = none := by
  have hpoll : pollClusterStatus (dbNameFor (generateFlyAppName name)) env.pgEnv.listResults =
      .timedOut :=
    pollAux_timeout _ _ maxRetries 0 (fun j _ hj2 => h8 j (by omega))
  have hpg : provisionPostgres (generateFlyAppName name) org env.pgEnv =
      .error (pollTimeoutMsg (dbNameFor (generateFlyAppName name)) org) := by
    simp [provisionPostgres, h7, hpoll]
  refine ⟨{ casinoName := name
            casinoPath := some p
            config := { cfg with
              redisUrl := some (jsOrStr pub
                ("redis://" ++ redisNameFor (generateFlyAppName name) ++ ".internal:6379"))
              tigrisBucket := some (tigrisNameFor (generateFlyAppName name)) }
            flyAppName := generateFlyAppName name
            flyOrgSlug := org
            postgresPassword := none }, ?_, rfl, rfl, rfl, rfl, rfl⟩
  simp [runTasks, runTasksTrace, initTasks, seedContext, h0, h1, h2, h3, h4, h5, h6,
    provisionRedis, provisionTigris, hpg, Except.map]

/-- C5 witness: a fully concrete environment whose status queries always
fail; the pipeline aborts at the database step with the timeout message and
the Redis/Tigris fields still populated. -/
theorem c5_db_timeout_preserves_earlier_fields_witness :
    ∃ ctxF,
      runTasks (initTasks
        { cloneResult := .ok "/root/.fare-casinos/demo"
        , installResult := .ok ()
        , prismaResult := .ok ()
        , buildResult := .ok ()
        , createAppResult := .ok ()
        , redisEnv := ⟨.ok none⟩
        , tigrisEnv := ⟨.ok ()⟩
        , pgEnv :=
          { createResult := ⟨"Created", "", 0⟩
          , listResults := fun _ => ⟨"", "transient error", 1⟩
          , attachResult := ⟨"", "", 0⟩
          , statusResult := ⟨"", "", 0⟩
          , parseStatus := fun _ => .parseError }
        , saveConfigResult := .ok ()
        , setSecretsResult := .ok ()
        , deployResult := .ok () })
        (seedContext "demo" ⟨"demo", "wallet", "secret", "https://rpc", none, none, none, none⟩
          "personal") =
        .error ⟨"Provisioning Postgres database",
                pollTimeoutMsg (dbNameFor (generateFlyAppName "demo")) "personal", ctxF⟩ ∧
      ctxF.config.redisUrl =
        some (jsOrStr none
          ("redis://" ++ redisNameFor (generateFlyAppName "demo") ++ ".internal:6379")) ∧
      ctxF.config.tigrisBucket = some (tigrisNameFor (generateFlyAppName "demo")) ∧
      ctxF.config.postgresUrl = none ∧
      ctxF.config.databasePassword = none ∧
      ctxF.postgresPassword = none :=
  c5_db_timeout_preserves_earlier_fields "demo" "personal"
    ⟨"demo", "wallet", "secret", "https://rpc", none, none, none, none⟩ _
    "/root/.fare-casinos/demo" none rfl rfl rfl rfl rfl rfl rfl rfl (by decide)

theorem runPrefix_fields (env : InitEnv) (name org : String) (cfg : CasinoConfig)
    (hc1 : cfg.redisUrl = none) (hc2 : cfg.tigrisBucket = none)
    (hc3 : cfg.postgresUrl = none) (hc4 : cfg.databasePassword = none) :
    ∀ i c, runPrefix env (seedContext name cfg org) i = .ok c →
      c.flyAppName = generateFlyAppName name ∧
      c.flyOrgSlug = org ∧
      c.casinoPath = (if 1 ≤ i then cloneOpt env else none) ∧
      c.config.redisUrl = (if 6 ≤ i then redisOpt env name else none) ∧
      c.config.tigrisBucket = (if 7 ≤ i then tigrisOpt env name else none) ∧
      c.config.postgresUrl = (if 8 ≤ i then (pgOpt env name org).map Prod.fst else none) ∧
      c.config.databasePassword = (if 8 ≤ i then (pgOpt env name org).map Prod.snd else none) ∧
      c.postgresPassword = (if 8 ≤ i then (pgOpt env name org).map Prod.snd else none) := by
  intro i
  induction i with
  | zero =>
    intro c h
    simp only [runPrefix, Except.ok.injEq] at h
    subst h
    simp [seedContext, hc1, hc2, hc3, hc4]
  | succ n ih =>
    intro c h
    rw [runPrefix] at h
    cases hp : runPrefix env (seedContext name cfg org) n with
    | error f => rw [hp] at h; exact absurd h (by simp)
    | ok ci =>
      rw [hp] at h
      obtain ⟨hApp, hOrg, hPath, hRedis, hTigris, hPgU, hPgP, hPP⟩ := ih ci hp
      rcases Nat.lt_or_ge n 11 with hlt | hge
      · interval_cases n
        · cases hr : env.cloneResult with
          | error e => simp [stepAt, initTasks, Except.map, hr] at h
          | ok u =>
            simp [stepAt, initTasks, Except.map, hr] at h
            subst h
            simp [hApp, hOrg, hPath, hRedis, hTigris, hPgU, hPgP, hPP,
              cloneOpt, exceptToOption, hr]
        · cases hr : env.installResult with
          | error e => simp [stepAt, initTasks, Except.map, hr] at h
          | ok u =>
            simp [stepAt, initTasks, Except.map, hr] at h
            subst h
            simp [hApp, hOrg, hPath, hRedis, hTigris, hPgU, hPgP, hPP]
        · cases hr : env.prismaResult with
          | error e => simp [stepAt, initTasks, Except.map, hr] at h
          | ok u =>
            simp [stepAt, initTasks, Except.map, hr] at h
            subst h
            simp [hApp, hOrg, hPath, hRedis, hTigris, hPgU, hPgP, hPP]
        · cases hr : env.buildResult with
          | error e => simp [stepAt, initTasks, Except.map, hr] at h
          | ok u =>
            simp [stepAt, initTasks, Except.map, hr] at h
            subst h
            simp [hApp, hOrg, hPath, hRedis, hTigris, hPgU, hPgP, hPP]
        · cases hr : env.createAppResult with
          | error e => simp [stepAt, initTasks, Except.map, hr] at h
          | ok u =>
            simp [stepAt, initTasks, Except.map, hr] at h
            subst h
            simp [hApp, hOrg, hPath, hRedis, hTigris, hPgU, hPgP, hPP]
        · cases hr : provisionRedis ci.flyAppName env.redisEnv with
          | error e => simp [stepAt, initTasks, Except.map, hr] at h
          | ok u =>
            simp [stepAt, initTasks, Except.map, hr] at h
            subst h
            rw [hApp] at hr
            simp [hApp, hOrg, hPath, hRedis, hTigris, hPgU, hPgP, hPP,
              redisOpt, exceptToOption, hr]
        · cases hr : provisionTigris ci.flyAppName env.tigrisEnv with
          | error e => simp [stepAt, initTasks, Except.map, hr] at h
          | ok u =>
            simp [stepAt, initTasks, Except.map, hr] at h
            subst h
            rw [hApp] at hr
            simp [hApp, hOrg, hPath, hRedis, hTigris, hPgU, hPgP, hPP,
              tigrisOpt, exceptToOption, hr]
        · cases hr : provisionPostgres ci.flyAppName ci.flyOrgSlug env.pgEnv with
          | error e => simp [stepAt, initTasks, Except.map, hr] at h
          | ok u =>
            simp [stepAt, initTasks, Except.map, hr] at h
            subst h
            rw [hApp, hOrg] at hr
            simp [hApp, hOrg, hPath, hRedis, hTigris, hPgU, hPgP, hPP,
              pgOpt, exceptToOption, hr]
        · cases hr : env.saveConfigResult with
          | error e => simp [stepAt, initTasks, Except.map, hr] at h
          | ok u =>
            simp [stepAt, initTasks, Except.map, hr] at h
            subst h
            simp [hApp, hOrg, hPath, hRedis, hTigris, hPgU, hPgP, hPP]
        · cases hr : env.setSecretsResult with
          | error e => simp [stepAt, initTasks, Except.map, hr] at h
          | ok u =>
            simp [stepAt, initTasks, Except.map, hr] at h
            subst h
            simp [hApp, hOrg, hPath, hRedis, hTigris, hPgU, hPgP, hPP]
        · cases hr : env.deployResult with
          | error e => simp [stepAt, initTasks, Except.map, hr] at h
          | ok u =>
            simp [stepAt, initTasks, Except.map, hr] at h
            subst h
            simp [hApp, hOrg, hPath, hRedis, hTigris, hPgU, hPgP, hPP]
      · have hlen : (initTasks env).length = 11 := rfl
        have hnone : (initTasks env).get? n = none := by
          rw [List.get?_eq_none, hlen]
          omega
        simp only [stepAt, hnone, Except.ok.injEq] at h
        subst h
        have a1 : 1 ≤ n := by omega
        have b1 : 1 ≤ n + 1 := by omega
        have a6 : 6 ≤ n := by omega
        have b6 : 6 ≤ n + 1 := by omega
        have a7 : 7 ≤ n := by omega
        have b7 : 7 ≤ n + 1 := by omega
        have a8 : 8 ≤ n := by omega
        have b8 : 8 ≤ n + 1 := by omega
        simp [hApp, hOrg, hPath, hRedis, hTigris, hPgU, hPgP, hPP,
          a1, b1, a6, b6, a7, b7, a8, b8]

theorem runTasks_append {σ : Type} (l₁ l₂ : List (PipeTask σ)) (ctx : σ) :
    runTasks (l₁ ++ l₂) ctx =
      match runTasks l₁ ctx with
      | .ok c => runTasks l₂ c
      | .error f => .error f := by
  induction l₁ generalizing ctx with
  | nil => simp [runTasks, runTasksTrace]
  | cons t ts ih =>
    simp only [List.cons_append, runTasks, runTasksTrace]
    cases ha : t.action ctx with
    | error e => rfl
    | ok c' =>
      have := ih c'
      simp only [runTasks] at this
      simp [this]

theorem runPrefix_eq_take (env : InitEnv) (c0 : InitContext) :
    ∀ n, runPrefix env c0 n = runTasks ((initTasks env).take n) c0 := by
  intro n
  induction n with
  | zero => rfl
  | succ m ih =>
    rw [runPrefix, List.take_succ, runTasks_append, ← ih]
    cases hp : runPrefix env c0 m with
    | error f => rfl
    | ok c =>
      cases hg : (initTasks env).get? m with
      | none =>
        have hg' : (initTasks env)[m]? = none := by rw [← List.get?_eq_getElem?]; exact hg
        simp [stepAt, hg, hg', runTasks, runTasksTrace]
      | some t =>
        have hg' : (initTasks env)[m]? = some t := by rw [← List.get?_eq_getElem?]; exact hg
        simp only [stepAt, hg, hg', Option.toList]
        cases ha : t.action c with
        | ok c' => simp [runTasks, runTasksTrace, ha]
        | error e => simp [runTasks, runTasksTrace, ha]

theorem ifIndexedOptionMono {α : Type} (w i j : Nat) (hij : i ≤ j) (o x y : Option α)
    (hx : x = if w ≤ i then o else none) (hy : y = if w ≤ j then o else none) :
    ∀ v, x = some v → y = some v := by
  intro v hv
  subst hx
  subst hy
  by_cases h : w ≤ i
  · rw [if_pos h] at hv
    rw [if_pos (le_trans h hij)]
    exact hv
  · rw [if_neg h] at hv
    exact absurd hv (by simp)

/-- C9: the context fields of a pipeline run are write-once — for any two
successful prefixes of the same run (of lengths `i ≤ j`), every field among
casino path, Redis URL, Tigris bucket, Postgres URL and database password
that is populated after `i` steps holds the same value after `j` steps; no
later step overwrites a populated field. -/
theorem c9_context_fields_write_once (name org : String) (cfg : CasinoConfig) (env : InitEnv)
    (hc1 : cfg.redisUrl = none) (hc2 : cfg.tigrisBucket = none)
    (hc3 : cfg.postgresUrl = none) (hc4 : cfg.databasePassword = none)
    (i j : Nat) (hij : i ≤ j) (ci cj : InitContext)
    (hi : runTasks ((initTasks env).take i) (seedContext name cfg org) = .ok ci)
    (hj : runTasks ((initTasks env).take j) (seedContext name cfg org) = .ok cj) :
    (∀ v, ci.casinoPath = some v → cj.casinoPath = some v) ∧
    (∀ v, ci.config.redisUrl = some v → cj.config.redisUrl = some v) ∧
    (∀ v, ci.config.tigrisBucket = some v → cj.config.tigrisBucket = some v) ∧
    (∀ v, ci.config.postgresUrl = some v → cj.config.postgresUrl = some v) ∧
    (∀ v, ci.config.databasePassword = some v → cj.config.databasePassword = some v) ∧
    (∀ v, ci.postgresPassword = some v → cj.postgresPassword = some v) := by
  rw [← runPrefix_eq_take] at hi hj
  obtain ⟨_, _, hPathI, hRedisI, hTigI, hPgUI, hPgPI, hPPI⟩ :=
    runPrefix_fields env name org cfg hc1 hc2 hc3 hc4 i ci hi
  obtain ⟨_, _, hPathJ, hRedisJ, hTigJ, hPgUJ, hPgPJ, hPPJ⟩ :=
    runPrefix_fields env name org cfg hc1 hc2 hc3 hc4 j cj hj
  exact ⟨ifIndexedOptionMono 1 i j hij _ _ _ hPathI hPathJ,
         ifIndexedOptionMono 6 i j hij _ _ _ hRedisI hRedisJ,
         ifIndexedOptionMono 7 i j hij _ _ _ hTigI hTigJ,
         ifIndexedOptionMono 8 i j hij _ _ _ hPgUI hPgUJ,
         ifIndexedOptionMono 8 i j hij _ _ _ hPgPI hPgPJ,
         ifIndexedOptionMono 8 i j hij _ _ _ hPPI hPPJ⟩

/-- C9 witness: in a fully successful concrete run, the Redis URL populated
after 6 steps is still the same after all 11 steps. -/
theorem c9_context_fields_write_once_witness :
    ({ casinoName := "demo"
       casinoPath := some "/p"
       config := ⟨"demo", "w", "s", "r", some "postgresql://real",
         some "redis://fare-demo-redis.internal:6379", some "fare-demo-storage", some "pw"⟩
       flyAppName := "fare-demo"
       flyOrgSlug := "personal"
       postgresPassword := some "pw" } : InitContext).config.redisUrl =
      some "redis://fare-demo-redis.internal:6379" :=
  (c9_context_fields_write_once "demo" "personal" ⟨"demo", "w", "s", "r", none, none, none, none⟩
    { cloneResult := .ok "/p"
    , installResult := .ok ()
    , prismaResult := .ok ()
    , buildResult := .ok ()
    , createAppResult := .ok ()
    , redisEnv := ⟨.ok none⟩
    , tigrisEnv := ⟨.ok ()⟩
    , pgEnv :=
      { createResult := ⟨"", "", 0⟩
      , listResults := fun _ => ⟨"abc123 fare-demo-db personal iad ready basic", "", 0⟩
      , attachResult := ⟨"", "", 0⟩
      , statusResult := ⟨"ignored", "", 0⟩
      , parseStatus := fun _ => .parsed (some "postgresql://real") (some "pw") }
    , saveConfigResult := .ok ()
    , setSecretsResult := .ok ()
    , deployResult := .ok () }
    rfl rfl rfl rfl 6 11 (by omega)
    { casinoName := "demo"
      casinoPath := some "/p"
      config := ⟨"demo", "w", "s", "r", none,
        some "redis://fare-demo-redis.internal:6379", none, none⟩
      flyAppName := "fare-demo"
      flyOrgSlug := "personal"
      postgresPassword := none }
    { casinoName := "demo"
      casinoPath := some "/p"
      config := ⟨"demo", "w", "s", "r", some "postgresql://real",
        some "redis://fare-demo-redis.internal:6379", some "fare-demo-storage", some "pw"⟩
      flyAppName := "fare-demo"
      flyOrgSlug := "personal"
      postgresPassword := some "pw" }
    rfl rfl).2.1 "redis://fare-demo-redis.internal:6379" rfl
